import Mathlib

/-!
Verification of the PowerDemon.AI analytics report pipeline
(scripts/yandex_direct_stats.py and scripts/yandex_metrica_stats.py).

The Python sources are shallowly embedded: Python ints become `Int`
(arbitrary precision, as in Python), floats become `ℚ`, fallible
conversions (`int(...)`, `float(...)`) become `Except Unit`, dictionaries
built by `dict(zip(headers, values))` become association lists with
last-binding-wins lookup, and the wall clock read by `datetime.now()`
becomes an explicit `now : String` parameter.
-/

namespace PowerDemon

/-- Python whitespace test used by `str.strip()` and the numeric
conversions. -/
def pyIsSpace (c : Char) : Bool :=
  c == ' ' || c == '\t' || c == '\n' || c == '\r' || c == '\x0b' || c == '\x0c'

/-- Python `str.strip()` on the character list of a string. -/
def pyStrip (cs : List Char) : List Char :=
  ((cs.dropWhile pyIsSpace).reverse.dropWhile pyIsSpace).reverse

/-- Python `str.split(sep)` for a one-character separator (the scripts
split only on `"\n"`, `"\t"` and `";"`): splitting the empty string
yields `[""]`, exactly as in Python. -/
def splitChar (sep : Char) : List Char → List (List Char)
  | [] => [[]]
  | c :: cs =>
    let r := splitChar sep cs
    if c = sep then [] :: r
    else
      match r with
      | [] => [[c]]
      | g :: gs => (c :: g) :: gs

/-- Accumulator for the value of a digit sequence: `none` as soon as a
non-digit occurs. -/
def digitsValAux (acc : Nat) : List Char → Option Nat
  | [] => some acc
  | c :: cs => if c.isDigit then digitsValAux (acc * 10 + (c.toNat - 48)) cs else none

/-- Value of a nonempty all-digit character sequence; `none` when empty or
when a non-digit occurs. -/
def digitsNum (cs : List Char) : Option Nat :=
  match cs with
  | [] => none
  | _ => digitsValAux 0 cs

/-- Python `int(str)` conversion: optional surrounding whitespace,
optional sign, then one or more decimal digits; anything else raises
`ValueError` (modelled as `none`). -/
def pyInt (s : String) : Option Int :=
  match pyStrip s.data with
  | [] => none
  | '-' :: cs => (digitsNum cs).map (fun n => -(n : Int))
  | '+' :: cs => (digitsNum cs).map (fun n => (n : Int))
  | cs => (digitsNum cs).map (fun n => (n : Int))

/-- Magnitude part of Python `float(str)`: digits, optionally followed by
a decimal point and further digits (at least one digit overall). -/
def pyFloatMag (cs : List Char) : Option ℚ :=
  let ip := cs.takeWhile Char.isDigit
  let rest := cs.drop ip.length
  match rest with
  | [] => (digitsNum ip).map (fun n => (n : ℚ))
  | '.' :: fr =>
    if fr.all Char.isDigit then
      if ip.isEmpty && fr.isEmpty then none
      else
        match digitsValAux 0 ip, digitsValAux 0 fr with
        | some a, some b => some ((a : ℚ) + (b : ℚ) / ((10 : ℚ) ^ fr.length))
        | _, _ => none
    else none
  | _ => none

/-- Python `float(str)` conversion (plain decimal notation, as produced by
the analytics service for rates and costs). -/
def pyFloat (s : String) : Option ℚ :=
  match pyStrip s.data with
  | [] => none
  | '-' :: cs => (pyFloatMag cs).map (fun q => -q)
  | '+' :: cs => pyFloatMag cs
  | cs => pyFloatMag cs

/-- Round a rational to the nearest integer (half rounds up): this is
`⌊q + 1/2⌋` written as one floor division so that it computes
structurally. -/
def ratRound (q : ℚ) : Int :=
  Int.fdiv (2 * q.num + q.den) (2 * q.den)

/-- Fixed-point formatting with no decimals, the embedding of the Python
f-string directive `:.0f` (floats are embedded as rationals, rounding to
nearest). -/
def fmt0 (q : ℚ) : String :=
  toString (ratRound q)

/-- Digits of a tenth-scaled natural as `whole.tenth`. -/
def fmt1Core (m : Nat) : String :=
  toString (m / 10) ++ "." ++ toString (m % 10)

/-- Fixed-point formatting with one decimal, the embedding of the Python
f-string directive `:.1f`. -/
def fmt1 (q : ℚ) : String :=
  let n : Int := ratRound (q * 10)
  if n < 0 then "-" ++ fmt1Core n.natAbs else fmt1Core n.natAbs

/-- Stand-in for Python `str(float)` as used for the already-rounded
one-decimal bounce rates interpolated directly into report lines. -/
def fmtRepr (q : ℚ) : String :=
  if q.den = 1 then toString q.num ++ ".0" else fmt1 q

/-! ## yandex_direct_stats.py : parse_tsv -/

/-- One canonical row: the association list built by
`dict(zip(headers, values))` in `parse_tsv` (later bindings shadow
earlier ones on lookup, as in a Python dict built left to right). -/
def Row := List (String × String)

instance : DecidableEq Row := by
  unfold Row
  infer_instance

/-- Row construction `dict(zip(headers, values))`: positional zip,
truncated to the shorter of the two lists exactly as Python `zip` is. -/
def mkRow (headers values : List String) : Row :=
  headers.zip values

/-- Python dict lookup `row.get(k)`: the last binding for `k` wins, `none`
when the key is absent. -/
def rowGet (r : Row) (k : String) : Option String :=
  r.reverse.lookup k

/-- Python `row.get(k, dflt)` for string-valued fields. -/
def rowGetD (r : Row) (k dflt : String) : String :=
  (rowGet r k).getD dflt

/-- Split a string into the list of strings between occurrences of a
one-character separator (Python `s.split(sep)`). -/
def splitStr (sep : Char) (s : String) : List String :=
  (splitChar sep s.data).map String.mk

/-- Embedding of `parse_tsv`: strip the payload, split into lines, take
the first line as the header, and zip every remaining line with the
header positionally.  No field-count check is performed. -/
def parseTsv (tsvData : String) : List Row :=
  let lines := (splitChar '\n' (pyStrip tsvData.data)).map String.mk
  match lines with
  | [] => []
  | h :: rest =>
    let headers := splitStr '\t' h
    rest.map (fun line => mkRow headers (splitStr '\t' line))

/-! ## yandex_direct_stats.py : generate_report_md -/

/-- Embedding of `int(r.get(key, 0))`: an absent key defaults to the
integer `0`; a present value is converted by `int(...)`, which raises
(`Except.error`) on non-numeric input. -/
def getIntE (r : Row) (k : String) : Except Unit Int :=
  match rowGet r k with
  | none => .ok 0
  | some s =>
    match pyInt s with
    | some n => .ok n
    | none => .error ()

/-- Embedding of `float(r.get(key, 0))`, analogous to `getIntE`. -/
def getFloatE (r : Row) (k : String) : Except Unit ℚ :=
  match rowGet r k with
  | none => .ok 0
  | some s =>
    match pyFloat s with
    | some q => .ok q
    | none => .error ()

/-- Embedding of `sum(int(r.get(k, 0)) for r in rows)`: the first failing
conversion aborts the sum, as the exception does in Python. -/
def sumIntE : List Row → String → Except Unit Int
  | [], _ => .ok 0
  | r :: rest, k =>
    match getIntE r k with
    | .error e => .error e
    | .ok v =>
      match sumIntE rest k with
      | .error e => .error e
      | .ok s => .ok (v + s)

/-- Embedding of `sum(float(r.get(k, 0)) for r in rows)`. -/
def sumFloatE : List Row → String → Except Unit ℚ
  | [], _ => .ok 0
  | r :: rest, k =>
    match getFloatE r k with
    | .error e => .error e
    | .ok v =>
      match sumFloatE rest k with
      | .error e => .error e
      | .ok s => .ok (v + s)

/-- Running sums of one aggregation bucket
(`{"impressions": …, "clicks": …, "cost": …}`). -/
structure Bucket where
  imps : Int
  clicks : Int
  cost : ℚ
deriving DecidableEq, Repr

/-- One step of the Python grouping loops: create the key with a zero
bucket on first sight (at the end of the dict, preserving insertion
order), then add the row values into it. -/
def upsert (acc : List (String × Bucket)) (k : String) (i c : Int) (co : ℚ) :
    List (String × Bucket) :=
  match acc with
  | [] => [(k, ⟨i, c, co⟩)]
  | (k', b) :: rest =>
    if k' = k then (k', ⟨b.imps + i, b.clicks + c, b.cost + co⟩) :: rest
    else (k', b) :: upsert rest k i c co

/-- Embedding of the grouping loops of `generate_report_md` (both the
by-ad-group and by-date loop have this shape; they differ only in the
dimension key).  Conversion failures abort the loop as in Python. -/
def foldBy (key dflt : String) : List Row → List (String × Bucket) →
    Except Unit (List (String × Bucket))
  | [], acc => .ok acc
  | r :: rest, acc =>
    match getIntE r "Impressions" with
    | .error e => .error e
    | .ok i =>
      match getIntE r "Clicks" with
      | .error e => .error e
      | .ok c =>
        match getFloatE r "Cost" with
        | .error e => .error e
        | .ok co => foldBy key dflt rest (upsert acc (rowGetD r key dflt) i c co)

/-- Embedding of the CTR expression used for the summary (line 112) and
for each group row (line 133):
`(clicks / impressions * 100) if impressions > 0 else 0`. -/
def ctrPct (clicks imps : Int) : ℚ :=
  if imps > 0 then (clicks : ℚ) / (imps : ℚ) * 100 else 0

/-- Embedding of the group-row flag expression (line 134):
warning strictly below 3 percent, positive strictly above 7 percent,
empty otherwise. -/
def flagOf (ctr : ℚ) : String :=
  if ctr < 3 then "⚠️" else if ctr > 7 then "✅" else ""

/-- Deterministic stable insertion step for the embedding of Python
`sorted` (placing `a` before the first element it is ordered before). -/
def insertBy (le : α → α → Bool) (a : α) : List α → List α
  | [] => [a]
  | b :: l => if le a b then a :: b :: l else b :: insertBy le a l

/-- Deterministic embedding of Python `sorted(xs, key=…)`. -/
def sortBy (le : α → α → Bool) (l : List α) : List α :=
  l.foldr (insertBy le) []

/-- One rendered group row of the Direct report. -/
def groupLine (p : String × Bucket) : String :=
  let ctr := ctrPct p.2.clicks p.2.imps
  let flag := flagOf ctr
  "| " ++ p.1 ++ " | " ++ toString p.2.imps ++ " | " ++ toString p.2.clicks ++
    " | " ++ fmt1 ctr ++ "% " ++ flag ++ " | " ++ fmt0 p.2.cost ++ "₽ |\n"

/-- One rendered per-day row of the Direct report. -/
def dayLine (p : String × Bucket) : String :=
  "| " ++ p.1 ++ " | " ++ toString p.2.imps ++ " | " ++ toString p.2.clicks ++
    " | " ++ fmt0 p.2.cost ++ "₽ |\n"

/-- Header of the Direct report, the only part that mentions the wall
clock value `now` (Python interpolates `datetime.now().strftime(...)`). -/
def directHeader (business dateFrom dateTo now : String) : String :=
  "# Отчёт Яндекс.Директ: " ++ business ++ "\n" ++
    "**Период:** " ++ dateFrom ++ " — " ++ dateTo ++ "\n" ++
    "**Дата формирования:** " ++ now ++ "\n\n"

/-- Body of the Direct report after the header: summary, by-group table
(stable-sorted descending by clicks), by-day table (sorted ascending by
date), footer.  Any `int`/`float` conversion failure propagates. -/
def directBody (rows : List Row) : Except Unit String :=
  if rows = [] then
    .ok "> Нет данных за указанный период. Кампания, возможно, ещё на модерации.\n"
  else
    match sumIntE rows "Impressions" with
    | .error e => .error e
    | .ok ti =>
      match sumIntE rows "Clicks" with
      | .error e => .error e
      | .ok tc =>
        match sumFloatE rows "Cost" with
        | .error e => .error e
        | .ok tco =>
          let avgCtr := ctrPct tc ti
          let summary :=
            "## Сводка\n\n| Показы | Клики | CTR | Расход |\n|--------|-------|-----|--------|\n| " ++
              toString ti ++ " | " ++ toString tc ++ " | " ++ fmt1 avgCtr ++
              "% | " ++ fmt0 tco ++ "₽ |\n\n"
          match foldBy "AdGroupName" "—" rows [] with
          | .error e => .error e
          | .ok gs =>
            let gsSorted := sortBy (fun a b => decide (b.2.clicks ≤ a.2.clicks)) gs
            let groupsSec :=
              "## По группам\n\n| Группа | Показы | Клики | CTR | Расход |\n|--------|--------|-------|-----|--------|\n" ++
                String.join (gsSorted.map groupLine) ++ "\n"
            match foldBy "Date" "—" rows [] with
            | .error e => .error e
            | .ok ds =>
              let dsSorted := sortBy (fun a b => decide ¬(b.1 < a.1)) ds
              let daysSec :=
                "## По дням\n\n| Дата | Показы | Клики | Расход |\n|------|--------|-------|--------|\n" ++
                  String.join (dsSorted.map dayLine)
              .ok (summary ++ groupsSec ++ daysSec ++
                "\n---\n*Сгенерировано автоматически скриптом yandex_direct_stats.py*\n")

/-- Embedding of `generate_report_md` of yandex_direct_stats.py, with the
wall clock made an explicit argument `now`. -/
def generateReportMdDirect (rows : List Row) (dateFrom dateTo business now : String) :
    Except Unit String :=
  (directBody rows).map (fun b => directHeader business dateFrom dateTo now ++ b)

/-! ## yandex_direct_stats.py : get_report -/

/-- One HTTP response of the Reports API as seen by `get_report`:
status 200 means READY (payload in `text`), status 201 means PENDING
("report is being computed"), any other status is an application-level
rejection. -/
structure HttpResp where
  status : Nat
  text : String
deriving DecidableEq, Repr

/-- Errors raised by `get_report`: the polling-ceiling timeout
("Отчёт не сформировался за 50 секунд") and the service rejection
(f"API Error \x7bstatus\x7d: \x7btext\x7d"), kept as distinct
constructors carrying the interpolated data. -/
inductive PyErr where
  | timeout : PyErr
  | apiError (status : Nat) (text : String) : PyErr
deriving DecidableEq, Repr

/-- Embedding of the retry loop `for _ in range(10)` in `get_report`:
request `i` is issued (after the fixed `time.sleep(5)` wait, not modelled
as real time), and ONLY a 200 status terminates the loop; fuel exhaustion
raises the timeout error.  `resp i` is the service response to the i-th
request overall (0-based). -/
def pollLoop (resp : Nat → HttpResp) : Nat → Nat → Except PyErr String
  | 0, _ => .error .timeout
  | n + 1, i =>
    if (resp i).status = 200 then .ok (resp i).text
    else pollLoop resp n (i + 1)

/-- Embedding of `get_report`, abstracted over the sequence of service
responses: the initial request is `resp 0`; a 200 returns its payload, a
201 enters the 10-iteration retry loop on requests 1..10, and any other
status raises the service error verbatim. -/
def getReport (resp : Nat → HttpResp) : Except PyErr String :=
  let r0 := resp 0
  if r0.status = 200 then .ok r0.text
  else if r0.status = 201 then pollLoop resp 10 1
  else .error (.apiError r0.status r0.text)

/-- Number of requests the retry loop issues before terminating. -/
def pollCount (resp : Nat → HttpResp) : Nat → Nat → Nat
  | 0, _ => 0
  | n + 1, i =>
    if (resp i).status = 200 then 1 else 1 + pollCount resp n (i + 1)

/-- Total number of requests `get_report` sends to the service for a
given response sequence. -/
def requestsMade (resp : Nat → HttpResp) : Nat :=
  if (resp 0).status = 200 then 1
  else if (resp 0).status = 201 then 1 + pollCount resp 10 1
  else 1

/-! ## yandex_metrica_stats.py : generate_report_md -/

/-- One typed per-day traffic row as built by `get_traffic_summary`
(visits/users/pageviews are `int(...)`, bounce rate and average duration
are rounded floats).  The same shape is what `append_to_csv` persists. -/
structure TrafficRow where
  date : String
  visits : Int
  users : Int
  pageviews : Int
  bounceRate : ℚ
  avgDuration : ℚ
deriving DecidableEq, Repr

/-- One traffic-source row as built by `get_traffic_sources`. -/
structure SourceRow where
  source : String
  visits : Int
  users : Int
  bounceRate : ℚ
deriving DecidableEq, Repr

/-- One search-query row as built by `get_search_queries`. -/
structure QueryRow where
  query : String
  visits : Int
deriving DecidableEq, Repr

/-- Embedding of the bounce-rate flag of the Metrica summary (line 133):
warning strictly above 50, check-mark otherwise. -/
def bounceFlag (avgBounce : ℚ) : String :=
  if avgBounce > 50 then "⚠️" else "✅"

/-- Header of the Metrica report; as in the Direct report, the wall clock
value appears only here. -/
def metricaHeader (business dateFrom dateTo now : String) : String :=
  "# Отчёт Яндекс.Метрика: " ++ business ++ "\n" ++
    "**Период:** " ++ dateFrom ++ " — " ++ dateTo ++ "\n" ++
    "**Дата формирования:** " ++ now ++ "\n\n"

/-- One rendered per-day row of the Metrica report. -/
def metricaDayLine (r : TrafficRow) : String :=
  "| " ++ r.date ++ " | " ++ toString r.visits ++ " | " ++ toString r.users ++
    " | " ++ toString r.pageviews ++ " | " ++ fmtRepr r.bounceRate ++ "% |\n"

/-- One rendered traffic-source row of the Metrica report. -/
def sourceLine (r : SourceRow) : String :=
  "| " ++ r.source ++ " | " ++ toString r.visits ++ " | " ++ toString r.users ++
    " | " ++ fmtRepr r.bounceRate ++ "% |\n"

/-- One rendered search-query row of the Metrica report. -/
def queryLine (r : QueryRow) : String :=
  "| " ++ r.query ++ " | " ++ toString r.visits ++ " |\n"

/-- Body of the Metrica report after the header: summary (sums plus
arithmetic means of the per-day bounce rate and duration), per-day table,
traffic sources sorted descending by visits (section present only when
nonempty), top-20 search queries (section present only when nonempty),
footer. -/
def metricaBody (traffic : List TrafficRow) (sources : List SourceRow)
    (queries : List QueryRow) : String :=
  if traffic = [] then "> Нет данных за указанный период.\n"
  else
    let totalVisits := (traffic.map (·.visits)).sum
    let totalUsers := (traffic.map (·.users)).sum
    let totalViews := (traffic.map (·.pageviews)).sum
    let avgBounce : ℚ :=
      if traffic = [] then 0 else (traffic.map (·.bounceRate)).sum / (traffic.length : ℚ)
    let avgDuration : ℚ :=
      if traffic = [] then 0 else (traffic.map (·.avgDuration)).sum / (traffic.length : ℚ)
    let summary :=
      "## Сводка\n\n| Визиты | Пользователи | Просмотры | Отказы | Ср. время |\n|--------|-------------|-----------|--------|----------|\n| " ++
        toString totalVisits ++ " | " ++ toString totalUsers ++ " | " ++
        toString totalViews ++ " | " ++ fmt0 avgBounce ++ "% " ++
        bounceFlag avgBounce ++ " | " ++ fmt0 avgDuration ++ " сек |\n\n"
    let daysSec :=
      "## По дням\n\n| Дата | Визиты | Пользователи | Просмотры | Отказы |\n|------|--------|-------------|-----------|--------|\n" ++
        String.join (traffic.map metricaDayLine)
    let sourcesSec :=
      if sources = [] then ""
      else
        "\n## Источники трафика\n\n| Источник | Визиты | Пользователи | Отказы |\n|----------|--------|-------------|--------|\n" ++
          String.join ((sortBy (fun a b => decide (b.visits ≤ a.visits)) sources).map sourceLine)
    let queriesSec :=
      if queries = [] then ""
      else
        "\n## Поисковые запросы (топ)\n\n| Запрос | Визиты |\n|--------|--------|\n" ++
          String.join ((queries.take 20).map queryLine)
    summary ++ daysSec ++ sourcesSec ++ queriesSec ++
      "\n---\n*Сгенерировано автоматически скриптом yandex_metrica_stats.py*\n"

/-- Embedding of `generate_report_md` of yandex_metrica_stats.py, with
the wall clock made an explicit argument `now`. -/
def generateReportMdMetrica (traffic : List TrafficRow) (sources : List SourceRow)
    (queries : List QueryRow) (dateFrom dateTo business now : String) : String :=
  metricaHeader business dateFrom dateTo now ++ metricaBody traffic sources queries

/-! ## yandex_metrica_stats.py : append_to_csv

The cumulative CSV is modelled as `Option (List TrafficRow)`: `none` when
the file does not exist, `some recs` for an existing file holding the
header line plus one record line per element of `recs`, in file order.
Reading the existing dates via `csv.DictReader` is modelled as projecting
the date field of every stored record. -/

/-- Records of the store file (empty when the file does not exist). -/
def fileRecords (file : Option (List TrafficRow)) : List TrafficRow :=
  file.getD []

/-- Date keys already present in the store file, as collected into
`existing_dates`. -/
def storeDates (file : Option (List TrafficRow)) : List String :=
  (fileRecords file).map (·.date)

/-- Embedding of the `new_rows` filter of `append_to_csv`: incoming
records whose date is already in `existing_dates` are dropped; the
membership test uses the dates read at open time (it is not updated as
new rows accumulate, exactly as in the source). -/
def newRowsOf (traffic : List TrafficRow) (file : Option (List TrafficRow)) :
    List TrafficRow :=
  traffic.filter (fun r => decide (r.date ∉ storeDates file))

/-- New state of the store file after `append_to_csv`: unchanged when
nothing is new (in particular a missing file is not created), otherwise
the old lines followed by the new rows (the file is opened in append
mode, the header being written first when the file did not exist). -/
def appendToCsvFile (traffic : List TrafficRow) (file : Option (List TrafficRow)) :
    Option (List TrafficRow) :=
  if newRowsOf traffic file = [] then file
  else some (fileRecords file ++ newRowsOf traffic file)

/-- Return value of `append_to_csv`: the Python function body contains a
bare `return` on the no-new-rows path and falls off the end otherwise, so
it returns `None` on every path. -/
def appendToCsvRet (_traffic : List TrafficRow) (_file : Option (List TrafficRow)) :
    Option Nat :=
  none

/-- Count printed by `append_to_csv` ("CSV: +N строк"); `none` models the
"нет новых данных" message of the no-new-rows path. -/
def appendPrinted (traffic : List TrafficRow) (file : Option (List TrafficRow)) :
    Option Nat :=
  if newRowsOf traffic file = [] then none
  else some (newRowsOf traffic file).length

/-- Number of records carrying date `d` in the store file. -/
def countDate (d : String) (file : Option (List TrafficRow)) : Nat :=
  ((fileRecords file).filter (fun r => decide (r.date = d))).length

/-! ## Derived observers used to state the theorems -/

/-- Whether an `Except` computation succeeded. -/
def exceptOk : Except ε α → Bool
  | .ok _ => true
  | .error _ => false

/-- Payload of a rendered report, or a marker when report generation
raised (used only to state results about the produced text). -/
def exOut : Except Unit String → String
  | .ok s => s
  | .error _ => "<error>"

/-- Successfully converted integer value of a metric field (`0` in the
error case, which the theorems rule out by hypothesis). -/
def vIntD (r : Row) (k : String) : Int :=
  match getIntE r k with
  | .ok n => n
  | .error _ => 0

/-- Successfully converted rational value of a metric field. -/
def vRatD (r : Row) (k : String) : ℚ :=
  match getFloatE r k with
  | .ok q => q
  | .error _ => 0

/-- All metric fields consumed by `generate_report_md` convert without a
`ValueError` on every row. -/
def allConvOk (rows : List Row) : Prop :=
  ∀ r ∈ rows,
    exceptOk (getIntE r "Impressions") = true ∧
    exceptOk (getIntE r "Clicks") = true ∧
    exceptOk (getFloatE r "Cost") = true

instance (rows : List Row) : Decidable (allConvOk rows) := by
  unfold allConvOk
  infer_instance

/-- Pure mirror of the grouping loops, defined on the converted values;
`foldBy` is proved to compute it whenever no conversion fails. -/
def foldByP (key dflt : String) : List Row → List (String × Bucket) →
    List (String × Bucket)
  | [], acc => acc
  | r :: rest, acc =>
    foldByP key dflt rest
      (upsert acc (rowGetD r key dflt) (vIntD r "Impressions") (vIntD r "Clicks")
        (vRatD r "Cost"))

/-- Sum of an integer metric over the rows, on the converted values. -/
def sumIntP (rows : List Row) (k : String) : Int :=
  (rows.map (fun r => vIntD r k)).sum

/-- Sum of a rational metric over the rows, on the converted values. -/
def sumFloatP (rows : List Row) (k : String) : ℚ :=
  (rows.map (fun r => vRatD r k)).sum

/-- Total impressions over a bucket list. -/
def sumBImps (gs : List (String × Bucket)) : Int :=
  (gs.map (fun p => p.2.imps)).sum

/-- Total clicks over a bucket list. -/
def sumBClicks (gs : List (String × Bucket)) : Int :=
  (gs.map (fun p => p.2.clicks)).sum

/-- Total cost over a bucket list. -/
def sumBCost (gs : List (String × Bucket)) : ℚ :=
  (gs.map (fun p => p.2.cost)).sum

/-- Definition following the specification text, for comparison with the
code: "CTR is 0 when impressions = 0, and equals clicks/impressions
otherwise". -/
def specCtr (clicks imps : ℚ) : ℚ :=
  if imps = 0 then 0 else clicks / imps

/-! ## Lemmas about the polling loop -/

/-- When every response from index `i` up to (excluding) a READY index
`k` is PENDING, the loop returns the payload of request `k`, provided `k`
is reachable within the remaining fuel. -/
theorem pollLoop_ok (resp : Nat → HttpResp) :
    ∀ (n i k : Nat), i ≤ k → k < i + n →
      (∀ j, i ≤ j → j < k → (resp j).status = 201) →
      (resp k).status = 200 →
      pollLoop resp n i = .ok (resp k).text := by
  intro n
  induction n with
  | zero => intro i k h1 h2 _ _; omega
  | succ n ih =>
    intro i k h1 h2 h3 h4
    unfold pollLoop
    by_cases hik : i = k
    · subst hik
      rw [if_pos h4]
    · have hlt : i < k := lt_of_le_of_ne h1 hik
      have h201 := h3 i le_rfl hlt
      rw [if_neg (by omega)]
      exact ih (i + 1) k (by omega) (by omega) (fun j hj1 hj2 => h3 j (by omega) hj2) h4

/-- When no response in the fuel window is READY, the loop exhausts its
fuel and raises the timeout error. -/
theorem pollLoop_timeout (resp : Nat → HttpResp) :
    ∀ (n i : Nat), (∀ j, i ≤ j → j < i + n → (resp j).status ≠ 200) →
      pollLoop resp n i = .error .timeout := by
  intro n
  induction n with
  | zero => intro i _; rfl
  | succ n ih =>
    intro i h
    unfold pollLoop
    rw [if_neg (h i le_rfl (by omega))]
    exact ih (i + 1) (fun j hj1 hj2 => h j (by omega) (by omega))

/-- When no response in the fuel window is READY, the loop issues exactly
one request per unit of fuel. -/
theorem pollCount_all (resp : Nat → HttpResp) :
    ∀ (n i : Nat), (∀ j, i ≤ j → j < i + n → (resp j).status ≠ 200) →
      pollCount resp n i = n := by
  intro n
  induction n with
  | zero => intro i _; rfl
  | succ n ih =>
    intro i h
    unfold pollCount
    rw [if_neg (h i le_rfl (by omega))]
    rw [ih (i + 1) (fun j hj1 hj2 => h j (by omega) (by omega))]
    omega

/-- The retry loop can only return a payload or the timeout error, never
a service-rejection error. -/
theorem pollLoop_ne_apiError (resp : Nat → HttpResp) :
    ∀ (n i : Nat) (c : Nat) (t : String),
      pollLoop resp n i ≠ .error (.apiError c t) := by
  intro n
  induction n with
  | zero =>
    intro i c t h
    exact PyErr.noConfusion (Except.error.inj h)
  | succ n ih =>
    intro i c t
    unfold pollLoop
    by_cases h200 : (resp i).status = 200
    · rw [if_pos h200]
      intro h
      exact Except.noConfusion h
    · rw [if_neg h200]
      exact ih (i + 1) c t

/-- C3: report fetching retries a PENDING (status 201) response up to the
10-attempt polling ceiling.  With `resp i` the response to the i-th
request (0-based, so requests 1..k of the claim are indices 0..k-1): if
every response before index `k ≤ 10` is PENDING and response `k` is READY,
`get_report` returns exactly that response's payload; if every response
through the ceiling is PENDING, it raises the timeout error after 11
requests (1 initial + 10 retries), and that error is distinct from the
service-rejection error.  The fixed wait interval (`time.sleep(5)`) is a
real-time effect not modelled here. -/
theorem c3_pending_retry_bounded (resp : Nat → HttpResp) (k : Nat)
    (h1 : 1 ≤ k) (h2 : k ≤ 10)
    (hpend : ∀ i, i < k → (resp i).status = 201) :
    ((resp k).status = 200 → getReport resp = .ok (resp k).text) ∧
    ((∀ i, i ≤ 10 → (resp i).status = 201) →
      getReport resp = .error .timeout ∧ requestsMade resp = 11) ∧
    (∀ c t, (PyErr.timeout : PyErr) ≠ .apiError c t) := by
  have h0 : (resp 0).status = 201 := hpend 0 (by omega)
  refine ⟨?_, ?_, ?_⟩
  · intro hk
    unfold getReport
    rw [if_neg (by omega), if_pos h0]
    exact pollLoop_ok resp 10 1 k h1 (by omega)
      (fun j hj1 hj2 => hpend j (by omega)) hk
  · intro hall
    have hne : ∀ j, 1 ≤ j → j < 1 + 10 → (resp j).status ≠ 200 := by
      intro j hj1 hj2
      rw [hall j (by omega)]
      omega
    constructor
    · unfold getReport
      rw [if_neg (by omega), if_pos h0]
      exact pollLoop_timeout resp 10 1 hne
    · unfold requestsMade
      rw [if_neg (by omega), if_pos h0, pollCount_all resp 10 1 hne]
  · intro c t h
    exact PyErr.noConfusion h

/-- Concrete response sequence of the C3 scenario: PENDING on attempts
1-3 (indices 0-2), READY with payload on attempt 4 (index 3). -/
def respC : Nat → HttpResp := fun i =>
  if i < 3 then ⟨201, "wait"⟩ else ⟨200, "payload"⟩

/-- C3 witness: the PENDING,PENDING,PENDING,READY sequence yields the
attempt-4 payload. -/
theorem c3_witness : getReport respC = .ok "payload" :=
  (c3_pending_retry_bounded respC 3 (by decide) (by decide)
    (by decide)).1 (by decide)

/-- Concrete response sequence refuting C4: PENDING first, then a
service rejection (status 400) on the second request, PENDING after. -/
def respF : Nat → HttpResp := fun i =>
  if i = 0 then ⟨201, ""⟩ else if i = 1 then ⟨400, "boom"⟩ else ⟨201, ""⟩

/-- C4 counterexample: after one PENDING, a FAILED (status 400) response
is NOT raised verbatim and does NOT stop resubmission — the client keeps
polling (11 requests in total) and raises the timeout error instead of
the service error. -/
theorem c4_counterexample :
    getReport respF = .error .timeout ∧
    (PyErr.timeout : PyErr) ≠ .apiError 400 "boom" ∧
    requestsMade respF = 11 :=
  ⟨rfl, by decide, rfl⟩

/-- C4 (amended): a FAILED response is raised verbatim with no further
resubmission only when it is the FIRST response; once polling has begun
after a PENDING, non-READY responses (including FAILED ones) are ignored
by the retry loop, which never raises a service-rejection error — it
either returns a later READY payload or raises the timeout error. -/
theorem c4_amended (resp : Nat → HttpResp) :
    ((resp 0).status ≠ 200 → (resp 0).status ≠ 201 →
      getReport resp = .error (.apiError (resp 0).status (resp 0).text) ∧
        requestsMade resp = 1) ∧
    ((resp 0).status = 201 →
      ∀ c t, getReport resp ≠ .error (.apiError c t)) := by
  constructor
  · intro h200 h201
    constructor
    · unfold getReport
      rw [if_neg h200, if_neg h201]
    · unfold requestsMade
      rw [if_neg h200, if_neg h201]
  · intro h0 c t
    unfold getReport
    rw [if_neg (by omega), if_pos h0]
    exact pollLoop_ne_apiError resp 10 1 c t

/-- Concrete response sequence for the C4 witness: an immediate service
rejection (status 500). -/
def respG : Nat → HttpResp := fun _ => ⟨500, "srv"⟩

/-- C4 witness: an immediate FAILED response is raised verbatim after a
single request. -/
theorem c4_witness :
    getReport respG = .error (.apiError 500 "srv") ∧ requestsMade respG = 1 :=
  (c4_amended respG).1 (by decide) (by decide)

/-! ## C2 : rendering determinism -/

/-- C2 counterexample: both generators interpolate the wall clock
(`datetime.now().strftime('%Y-%m-%d %H:%M')`) into the report header, so
rendering the SAME bucket set twice (here: the empty bucket set, with the
same threshold configuration) at two different clock readings yields
different output text — the output is not a function of the buckets and
thresholds alone. -/
theorem c2_counterexample :
    exOut (generateReportMdDirect [] "2025-01-01" "2025-01-07" "demo" "2025-01-08 08:00") ≠
      exOut (generateReportMdDirect [] "2025-01-01" "2025-01-07" "demo" "2025-01-08 08:01") ∧
    generateReportMdMetrica [] [] [] "2025-01-01" "2025-01-07" "demo" "2025-01-08 08:00" ≠
      generateReportMdMetrica [] [] [] "2025-01-01" "2025-01-07" "demo" "2025-01-08 08:01" :=
  ⟨by decide, by decide⟩

/-- Dropping a prepended header from a possibly-failed rendering leaves
exactly the body, whatever the header was. -/
theorem dropHeader (e : Except Unit String) (a : String) :
    (e.map (fun b => a ++ b)).map (fun s => s.data.drop a.data.length) =
      e.map (fun b => b.data) := by
  cases e with
  | error u => rfl
  | ok s =>
    show Except.ok ((a ++ s).data.drop a.data.length) = Except.ok s.data
    rw [show (a ++ s).data = a.data ++ s.data from rfl, List.drop_left]

/-- C2 (amended): rendering is a pure function of the bucket set, the
thresholds AND the generation timestamp; the timestamp influences only
the report header, so two renderings of the same bucket set at different
clock readings agree byte-for-byte on everything after their headers (and
renderings at the same clock reading are identical outright). -/
theorem c2_amended (rows : List Row) (traffic : List TrafficRow)
    (sources : List SourceRow) (queries : List QueryRow)
    (dateFrom dateTo business t t' : String) :
    (generateReportMdDirect rows dateFrom dateTo business t).map
        (fun s => s.data.drop (directHeader business dateFrom dateTo t).data.length) =
      (generateReportMdDirect rows dateFrom dateTo business t').map
        (fun s => s.data.drop (directHeader business dateFrom dateTo t').data.length) ∧
    (generateReportMdMetrica traffic sources queries dateFrom dateTo business t).data.drop
        (metricaHeader business dateFrom dateTo t).data.length =
      (generateReportMdMetrica traffic sources queries dateFrom dateTo business t').data.drop
        (metricaHeader business dateFrom dateTo t').data.length := by
  have hdata : ∀ a b : String, (a ++ b).data = a.data ++ b.data := fun a b => rfl
  constructor
  · unfold generateReportMdDirect
    rw [dropHeader (directBody rows) (directHeader business dateFrom dateTo t),
      dropHeader (directBody rows) (directHeader business dateFrom dateTo t')]
  · unfold generateReportMdMetrica
    rw [hdata, hdata, List.drop_left, List.drop_left]

/-! ## C5 : CTR guard, C6 : threshold flags -/

/-- The guarded CTR expression agrees with the specification's ratio, up
to the percent scale factor, whenever the summed impressions are
non-negative. -/
theorem ctrPct_eq_specCtr (c i : Int) (h : 0 ≤ i) :
    ctrPct c i = 100 * specCtr (c : ℚ) (i : ℚ) := by
  unfold ctrPct specCtr
  rcases lt_or_eq_of_le h with hpos | hzero
  · rw [if_pos hpos, if_neg (by exact_mod_cast hpos.ne.symm)]
    ring
  · rw [if_neg (by omega), if_pos (by exact_mod_cast hzero.symm)]
    ring

/-- C5: for the overall summary and for every per-group bucket, the
computed CTR (a percentage, line 112 resp. 133 of
yandex_direct_stats.py) equals `clicks / impressions` — expressed in
percent, i.e. `100 ×` the spec ratio — whenever the summed impressions
are positive, and equals 0 when they are 0; the guard makes the
division-by-zero branch return 0 instead of raising (rationals model the
floats, so no NaN exists). -/
theorem c5_ctr_guard (ti tc : Int) (b : Bucket) (h1 : 0 ≤ ti) (h2 : 0 ≤ b.imps) :
    ctrPct tc ti = 100 * specCtr (tc : ℚ) (ti : ℚ) ∧
    ctrPct b.clicks b.imps = 100 * specCtr (b.clicks : ℚ) (b.imps : ℚ) ∧
    (ti = 0 → ctrPct tc ti = 0) ∧
    (b.imps = 0 → ctrPct b.clicks b.imps = 0) :=
  ⟨ctrPct_eq_specCtr tc ti h1, ctrPct_eq_specCtr b.clicks b.imps h2,
    fun hz => by unfold ctrPct; rw [if_neg (by omega)],
    fun hz => by unfold ctrPct; rw [if_neg (by omega)]⟩

/-- C5 witness: a bucket with 200 impressions and 10 clicks. -/
theorem c5_witness :
    ctrPct 10 200 = 100 * specCtr ((10 : Int) : ℚ) ((200 : Int) : ℚ) :=
  (c5_ctr_guard 200 10 ⟨1, 0, 0⟩ (by decide) (by decide)).1

/-- C6: the flags are strict comparisons: a rendered group row (whose
flag is `flagOf` of its CTR percentage, line 134) carries the warning
flag iff its CTR is strictly below 3 and the positive flag iff it is
strictly above 7, so a row at exactly 3.0 percent carries no flag; the
Metrica summary (line 133 of yandex_metrica_stats.py) carries the
bounce-rate warning flag iff the average bounce rate is strictly above
50. -/
theorem c6_strict_thresholds (ctr avgBounce : ℚ) :
    (flagOf ctr = "⚠️" ↔ ctr < 3) ∧
    (flagOf ctr = "✅" ↔ 7 < ctr) ∧
    flagOf 3 = "" ∧
    (bounceFlag avgBounce = "⚠️" ↔ 50 < avgBounce) := by
  refine ⟨?_, ?_, ?_, ?_⟩
  · unfold flagOf
    constructor
    · intro hf
      by_contra h3
      rw [if_neg h3] at hf
      by_cases h7 : ctr > 7
      · rw [if_pos h7] at hf
        exact absurd hf (by decide)
      · rw [if_neg h7] at hf
        exact absurd hf (by decide)
    · intro h3
      rw [if_pos h3]
  · unfold flagOf
    constructor
    · intro hf
      by_cases h3 : ctr < 3
      · rw [if_pos h3] at hf
        exact absurd hf (by decide)
      · rw [if_neg h3] at hf
        by_cases h7 : ctr > 7
        · exact h7
        · rw [if_neg h7] at hf
          exact absurd hf (by decide)
    · intro h7
      rw [if_neg (by linarith), if_pos h7]
  · unfold flagOf
    rw [if_neg (by norm_num), if_neg (by norm_num)]
  · unfold bounceFlag
    constructor
    · intro hf
      by_contra h50
      rw [if_neg h50] at hf
      exact absurd hf (by decide)
    · intro h50
      rw [if_pos h50]

/-! ## C7 : tabular normalization -/

/-- C7 counterexample: a data line with MORE fields than the header
(`v1\tv2\tv3` under the two-field header `h1\th2`) is not reported as
malformed — it is silently truncated by `zip` into a two-field row, and
the following well-formed line still parses.  (A line with fewer fields
is likewise silently turned into a short row.) -/
theorem c7_counterexample :
    parseTsv "h1\th2\nv1\tv2\tv3\nx\ty" =
      [[("h1", "v1"), ("h2", "v2")], [("h1", "x"), ("h2", "y")]] := by
  decide

/-- C7 (amended): every data line — well-formed or not — becomes exactly
one row, in source order, by positional zip with the header (so N
same-field-count lines yield N canonical rows, and parsing never aborts);
but a line whose field count differs from the header's is NOT reported:
it is silently truncated to the shorter of the two field lists and kept
as a row. -/
theorem c7_zip_rows (tsvData hdr : String) (rest : List String)
    (hsplit : (splitChar '\n' (pyStrip tsvData.data)).map String.mk = hdr :: rest) :
    parseTsv tsvData =
      rest.map (fun line => mkRow (splitStr '\t' hdr) (splitStr '\t' line)) ∧
    (parseTsv tsvData).length = rest.length ∧
    (∀ hs vs : List String, (mkRow hs vs).length = min hs.length vs.length) := by
  have hmain : parseTsv tsvData =
      rest.map (fun line => mkRow (splitStr '\t' hdr) (splitStr '\t' line)) := by
    unfold parseTsv
    rw [hsplit]
  refine ⟨hmain, ?_, ?_⟩
  · rw [hmain, List.length_map]
  · intro hs vs
    unfold mkRow
    exact List.length_zip hs vs

/-- C7 witness: a header plus one well-formed data line yields exactly
one row in source order. -/
theorem c7_witness :
    parseTsv "a\tb\nc\td" =
      ["c\td"].map (fun line => mkRow (splitStr '\t' "a\tb") (splitStr '\t' line)) :=
  (c7_zip_rows "a\tb\nc\td" "a\tb" ["c\td"] (by decide)).1

/-! ## C8 : coercion of metric fields -/

/-- C8 counterexample: a present but non-numeric metric value
(`Impressions = "abc"`) does NOT coerce to 0 — `int("abc")` raises and
report generation fails; no coercion-warning count exists anywhere in the
result. -/
theorem c8_counterexample :
    generateReportMdDirect [[("Impressions", "abc")]]
      "2025-01-01" "2025-01-07" "demo" "2025-01-08 08:00" = .error () := rfl

/-- A single failing conversion anywhere in the rows makes the whole sum
raise, as the Python exception does. -/
theorem sumIntE_error (rows : List Row) (k : String) (r : Row)
    (hr : r ∈ rows) (he : getIntE r k = .error ()) :
    sumIntE rows k = .error () := by
  induction rows with
  | nil => cases hr
  | cons a l ih =>
    rcases List.mem_cons.mp hr with h | h
    · subst h
      unfold sumIntE
      rw [he]
    · unfold sumIntE
      cases hg : getIntE a k with
      | error e => rfl
      | ok v => rw [ih h]

/-- C8 (amended): a metric field that is ABSENT from a row defaults to 0
(via `r.get(key, 0)`), but a PRESENT non-numeric value raises a
conversion error that aborts report generation entirely; no
coercion-warning count is produced anywhere. -/
theorem c8_coercion (rows : List Row) (r : Row) (k s : String) :
    (rowGet r k = none → getIntE r k = .ok 0 ∧ getFloatE r k = .ok 0) ∧
    (rowGet r k = some s → pyInt s = none → getIntE r k = .error ()) ∧
    (r ∈ rows → getIntE r "Impressions" = .error () → rows ≠ [] →
      ∀ d1 d2 biz t, generateReportMdDirect rows d1 d2 biz t = .error ()) := by
  refine ⟨?_, ?_, ?_⟩
  · intro habs
    constructor
    · unfold getIntE
      rw [habs]
    · unfold getFloatE
      rw [habs]
  · intro hpres hnum
    unfold getIntE
    rw [hpres]
    show (match pyInt s with
      | some n => Except.ok n
      | none => Except.error ()) = Except.error ()
    rw [hnum]
  · intro hmem herr hne d1 d2 biz t
    have hsum : sumIntE rows "Impressions" = .error () :=
      sumIntE_error rows "Impressions" r hmem herr
    unfold generateReportMdDirect directBody
    rw [if_neg hne, hsum]
    rfl

/-- C8 witness: a row whose `Impressions` value is the non-numeric string
`"zz"` aborts report generation with an error instead of being coerced. -/
theorem c8_witness :
    generateReportMdDirect [[("Impressions", "zz"), ("Clicks", "1")]]
      "d1" "d2" "b" "t" = .error () :=
  (c8_coercion [[("Impressions", "zz"), ("Clicks", "1")]]
      [("Impressions", "zz"), ("Clicks", "1")] "Impressions" "zz").2.2
    (by decide) rfl (by decide) "d1" "d2" "b" "t"

/-! ## C1, C9 : the cumulative CSV store -/

/-- Membership in the `new_rows` selection. -/
theorem mem_newRowsOf {r : TrafficRow} {traffic : List TrafficRow}
    {file : Option (List TrafficRow)} :
    r ∈ newRowsOf traffic file ↔ r ∈ traffic ∧ r.date ∉ storeDates file := by
  unfold newRowsOf
  rw [List.mem_filter]
  simp

/-- Nothing is new exactly when every incoming date is already stored. -/
theorem newRowsOf_eq_nil {traffic : List TrafficRow} {file : Option (List TrafficRow)} :
    newRowsOf traffic file = [] ↔ ∀ r ∈ traffic, r.date ∈ storeDates file := by
  unfold newRowsOf
  rw [List.filter_eq_nil_iff]
  simp

/-- A date has no stored record exactly when it is not among the stored
date keys. -/
theorem countDate_eq_zero {d : String} {file : Option (List TrafficRow)} :
    countDate d file = 0 ↔ d ∉ storeDates file := by
  unfold countDate storeDates
  rw [List.length_eq_zero, List.filter_eq_nil_iff]
  simp

/-- Stored dates after an append are the old dates followed by the dates
of the appended rows. -/
theorem storeDates_append (file : Option (List TrafficRow)) (nr : List TrafficRow) :
    storeDates (some (fileRecords file ++ nr)) =
      storeDates file ++ nr.map (fun r => r.date) := by
  unfold storeDates fileRecords
  simp [List.map_append]

/-- When nothing is new, the store file (existing or missing) is left
untouched. -/
theorem appendToCsvFile_of_nil {traffic : List TrafficRow}
    {file : Option (List TrafficRow)} (h : newRowsOf traffic file = []) :
    appendToCsvFile traffic file = file := by
  unfold appendToCsvFile
  rw [if_pos h]

/-- C1: `append_to_csv` is an idempotent no-overwrite merge: the old file
lines survive verbatim as a prefix of the new file (nothing is rewritten,
reordered or removed); running the same append twice equals running it
once; a record whose date key is already stored is skipped (the count of
records for any stored date is unchanged); a record with a new date key
is appended; and appending the same date twice — even with different
newly computed values `r2` — leaves exactly one record for that date. -/
theorem c1_append_merge (file : Option (List TrafficRow)) (traffic : List TrafficRow)
    (r r2 : TrafficRow) (hdate : r2.date = r.date)
    (hnew : countDate r.date file = 0) :
    (∃ tail, fileRecords (appendToCsvFile traffic file) = fileRecords file ++ tail) ∧
    appendToCsvFile traffic (appendToCsvFile traffic file) =
      appendToCsvFile traffic file ∧
    (∀ d, d ∈ storeDates file →
      countDate d (appendToCsvFile traffic file) = countDate d file) ∧
    (∀ s, s ∈ traffic → s.date ∉ storeDates file →
      s ∈ fileRecords (appendToCsvFile traffic file)) ∧
    countDate r.date (appendToCsvFile [r2] (appendToCsvFile [r] file)) = 1 := by
  refine ⟨?_, ?_, ?_, ?_, ?_⟩
  · by_cases hnr : newRowsOf traffic file = []
    · refine ⟨[], ?_⟩
      unfold appendToCsvFile
      rw [if_pos hnr, List.append_nil]
    · refine ⟨newRowsOf traffic file, ?_⟩
      unfold appendToCsvFile
      rw [if_neg hnr]
      rfl
  · by_cases hnr : newRowsOf traffic file = []
    · have happ : appendToCsvFile traffic file = file := by
        unfold appendToCsvFile
        rw [if_pos hnr]
      rw [happ, happ]
    · have happ : appendToCsvFile traffic file =
          some (fileRecords file ++ newRowsOf traffic file) := by
        unfold appendToCsvFile
        rw [if_neg hnr]
      have hnil : newRowsOf traffic (appendToCsvFile traffic file) = [] := by
        apply newRowsOf_eq_nil.mpr
        intro s hs
        rw [happ, storeDates_append]
        by_cases hsd : s.date ∈ storeDates file
        · exact List.mem_append_left _ hsd
        · refine List.mem_append_right _ ?_
          exact List.mem_map.mpr ⟨s, mem_newRowsOf.mpr ⟨hs, hsd⟩, rfl⟩
      exact appendToCsvFile_of_nil hnil
  · intro d hd
    by_cases hnr : newRowsOf traffic file = []
    · unfold appendToCsvFile
      rw [if_pos hnr]
    · unfold appendToCsvFile
      rw [if_neg hnr]
      show countDate d (some (fileRecords file ++ newRowsOf traffic file)) =
        countDate d file
      unfold countDate fileRecords
      simp only [Option.getD_some, List.filter_append, List.length_append]
      have hfil : (newRowsOf traffic file).filter (fun s => decide (s.date = d)) = [] := by
        rw [List.filter_eq_nil_iff]
        intro s hs
        have hsd : s.date ∉ storeDates file := (mem_newRowsOf.mp hs).2
        simp only [decide_eq_true_eq]
        intro hEq
        exact hsd (hEq ▸ hd)
      rw [hfil]
      rfl
  · intro s hs hsd
    have hmem : s ∈ newRowsOf traffic file := mem_newRowsOf.mpr ⟨hs, hsd⟩
    have hnr : newRowsOf traffic file ≠ [] := List.ne_nil_of_mem hmem
    unfold appendToCsvFile
    rw [if_neg hnr]
    exact List.mem_append_right _ hmem
  · have hrd : r.date ∉ storeDates file := countDate_eq_zero.mp hnew
    have h1 : newRowsOf [r] file = [r] := by
      unfold newRowsOf
      simp [hrd]
    have hfile1 : appendToCsvFile [r] file = some (fileRecords file ++ [r]) := by
      unfold appendToCsvFile
      rw [h1]
      simp
    have hd1 : r2.date ∈ storeDates (appendToCsvFile [r] file) := by
      rw [hfile1, storeDates_append, hdate]
      exact List.mem_append_right _ (by simp)
    have h2 : newRowsOf [r2] (appendToCsvFile [r] file) = [] := by
      apply newRowsOf_eq_nil.mpr
      intro s hs
      rw [List.mem_singleton] at hs
      rw [hs]
      exact hd1
    have hfile2 : appendToCsvFile [r2] (appendToCsvFile [r] file) =
        appendToCsvFile [r] file := appendToCsvFile_of_nil h2
    rw [hfile2, hfile1]
    unfold countDate fileRecords at hnew ⊢
    simp only [Option.getD_some, List.filter_append, List.length_append]
    rw [hnew]
    simp

/-- Concrete records for the C1 witness: same date, different values. -/
def recW1 : TrafficRow := ⟨"2025-04-01", 10, 8, 20, 35, 60⟩

/-- Second record of the C1 witness, same date as `recW1`. -/
def recW2 : TrafficRow := ⟨"2025-04-01", 99, 9, 9, 9, 9⟩

/-- C1 witness: appending the same date twice into an initially missing
store leaves exactly one record for that date. -/
theorem c1_witness :
    countDate "2025-04-01" (appendToCsvFile [recW2] (appendToCsvFile [recW1] none)) = 1 :=
  (c1_append_merge none [] recW1 recW2 rfl (by decide)).2.2.2.2

/-- Concrete record for the C9 counterexample. -/
def recW3 : TrafficRow := ⟨"2025-05-02", 7, 6, 15, 40, 55⟩

/-- C9 counterexample: appending one genuinely new record grows the store
by one line, yet `append_to_csv` returns `None` — not the count 1 the
claim requires (the Python function body has no `return <value>`). -/
theorem c9_counterexample :
    appendToCsvRet [recW3] none = none ∧
    fileRecords (appendToCsvFile [recW3] none) = [recW3] :=
  ⟨rfl, by decide⟩

/-- C9 (amended): the number of newly appended records is only PRINTED
("CSV: +N строк"), never returned — the function returns `None` on every
path; the printed count does equal the store's actual growth. -/
theorem c9_printed_not_returned (traffic : List TrafficRow)
    (file : Option (List TrafficRow)) :
    appendToCsvRet traffic file = none ∧
    (fileRecords (appendToCsvFile traffic file)).length =
      (fileRecords file).length + (appendPrinted traffic file).getD 0 := by
  refine ⟨rfl, ?_⟩
  by_cases hnr : newRowsOf traffic file = []
  · unfold appendToCsvFile appendPrinted
    rw [if_pos hnr, if_pos hnr]
    rfl
  · unfold appendToCsvFile appendPrinted
    rw [if_neg hnr, if_neg hnr]
    show (fileRecords file ++ newRowsOf traffic file).length =
      (fileRecords file).length + (newRowsOf traffic file).length
    exact List.length_append _ _

/-! ## C10 : aggregation conserves totals -/

/-- When every conversion of a metric field succeeds, the monadic sum of
the code equals the plain sum of the converted values. -/
theorem sumIntE_ok (rows : List Row) (k : String)
    (h : ∀ r ∈ rows, exceptOk (getIntE r k) = true) :
    sumIntE rows k = .ok (sumIntP rows k) := by
  induction rows with
  | nil => rfl
  | cons a l ih =>
    have h0 := h a (List.mem_cons_self a l)
    cases hg : getIntE a k with
    | error e =>
      rw [hg] at h0
      exact absurd h0 (by simp [exceptOk])
    | ok v =>
      unfold sumIntE
      rw [hg, ih (fun r hr => h r (List.mem_cons_of_mem a hr))]
      unfold sumIntP vIntD
      simp [hg]

/-- Rational-metric analogue of `sumIntE_ok`. -/
theorem sumFloatE_ok (rows : List Row) (k : String)
    (h : ∀ r ∈ rows, exceptOk (getFloatE r k) = true) :
    sumFloatE rows k = .ok (sumFloatP rows k) := by
  induction rows with
  | nil => rfl
  | cons a l ih =>
    have h0 := h a (List.mem_cons_self a l)
    cases hg : getFloatE a k with
    | error e =>
      rw [hg] at h0
      exact absurd h0 (by simp [exceptOk])
    | ok v =>
      unfold sumFloatE
      rw [hg, ih (fun r hr => h r (List.mem_cons_of_mem a hr))]
      unfold sumFloatP vRatD
      simp [hg]

/-- When every conversion succeeds, the monadic grouping loop of the code
computes its pure mirror, for every starting accumulator. -/
theorem foldBy_ok (key dflt : String) (rows : List Row) (h : allConvOk rows) :
    ∀ acc, foldBy key dflt rows acc = .ok (foldByP key dflt rows acc) := by
  induction rows with
  | nil => intro acc; rfl
  | cons a l ih =>
    intro acc
    obtain ⟨hI, hC, hCo⟩ := h a (List.mem_cons_self a l)
    cases hgI : getIntE a "Impressions" with
    | error e =>
      rw [hgI] at hI
      exact absurd hI (by simp [exceptOk])
    | ok i =>
      cases hgC : getIntE a "Clicks" with
      | error e =>
        rw [hgC] at hC
        exact absurd hC (by simp [exceptOk])
      | ok c =>
        cases hgCo : getFloatE a "Cost" with
        | error e =>
          rw [hgCo] at hCo
          exact absurd hCo (by simp [exceptOk])
        | ok co =>
          have ihl := ih (fun r hr => h r (List.mem_cons_of_mem a hr))
          have eI : vIntD a "Impressions" = i := by unfold vIntD; rw [hgI]
          have eC : vIntD a "Clicks" = c := by unfold vIntD; rw [hgC]
          have eCo : vRatD a "Cost" = co := by unfold vRatD; rw [hgCo]
          unfold foldBy
          rw [hgI, hgC, hgCo]
          show foldBy key dflt l (upsert acc (rowGetD a key dflt) i c co) =
            Except.ok (foldByP key dflt (a :: l) acc)
          rw [ihl]
          show _ = Except.ok (foldByP key dflt l
            (upsert acc (rowGetD a key dflt) (vIntD a "Impressions") (vIntD a "Clicks")
              (vRatD a "Cost")))
          rw [eI, eC, eCo]

/-- Adding one row's values into the bucket map adds exactly those values
to the bucket totals, whether the key is fresh or already present. -/
theorem upsert_sums (acc : List (String × Bucket)) (k : String) (i c : Int) (co : ℚ) :
    sumBImps (upsert acc k i c co) = sumBImps acc + i ∧
    sumBClicks (upsert acc k i c co) = sumBClicks acc + c ∧
    sumBCost (upsert acc k i c co) = sumBCost acc + co := by
  induction acc with
  | nil =>
    refine ⟨?_, ?_, ?_⟩ <;> simp [upsert, sumBImps, sumBClicks, sumBCost]
  | cons p rest ih =>
    obtain ⟨k', b⟩ := p
    by_cases hk : k' = k
    · refine ⟨?_, ?_, ?_⟩ <;>
        · simp only [upsert, if_pos hk, sumBImps, sumBClicks, sumBCost,
            List.map_cons, List.sum_cons]
          ring
    · obtain ⟨ih1, ih2, ih3⟩ := ih
      refine ⟨?_, ?_, ?_⟩
      · simp only [upsert, if_neg hk, sumBImps, List.map_cons, List.sum_cons]
        rw [show ((upsert rest k i c co).map (fun p => p.2.imps)).sum = sumBImps (upsert rest k i c co) from rfl, ih1]
        unfold sumBImps
        ring
      · simp only [upsert, if_neg hk, sumBClicks, List.map_cons, List.sum_cons]
        rw [show ((upsert rest k i c co).map (fun p => p.2.clicks)).sum = sumBClicks (upsert rest k i c co) from rfl, ih2]
        unfold sumBClicks
        ring
      · simp only [upsert, if_neg hk, sumBCost, List.map_cons, List.sum_cons]
        rw [show ((upsert rest k i c co).map (fun p => p.2.cost)).sum = sumBCost (upsert rest k i c co) from rfl, ih3]
        unfold sumBCost
        ring

/-- The bucket totals of the pure grouping fold are the starting totals
plus the row sums: grouping is a partition, so nothing is lost or
duplicated. -/
theorem foldByP_sums (key dflt : String) :
    ∀ (rows : List Row) (acc : List (String × Bucket)),
      sumBImps (foldByP key dflt rows acc) = sumBImps acc + sumIntP rows "Impressions" ∧
      sumBClicks (foldByP key dflt rows acc) = sumBClicks acc + sumIntP rows "Clicks" ∧
      sumBCost (foldByP key dflt rows acc) = sumBCost acc + sumFloatP rows "Cost" := by
  intro rows
  induction rows with
  | nil =>
    intro acc
    refine ⟨?_, ?_, ?_⟩ <;> simp [foldByP, sumIntP, sumFloatP]
  | cons a l ih =>
    intro acc
    obtain ⟨u1, u2, u3⟩ :=
      upsert_sums acc (rowGetD a key dflt) (vIntD a "Impressions") (vIntD a "Clicks")
        (vRatD a "Cost")
    obtain ⟨ih1, ih2, ih3⟩ :=
      ih (upsert acc (rowGetD a key dflt) (vIntD a "Impressions") (vIntD a "Clicks")
        (vRatD a "Cost"))
    refine ⟨?_, ?_, ?_⟩
    · show sumBImps (foldByP key dflt l _) = _
      rw [ih1, u1]
      unfold sumIntP
      simp only [List.map_cons, List.sum_cons]
      ring
    · show sumBClicks (foldByP key dflt l _) = _
      rw [ih2, u2]
      unfold sumIntP
      simp only [List.map_cons, List.sum_cons]
      ring
    · show sumBCost (foldByP key dflt l _) = _
      rw [ih3, u3]
      unfold sumFloatP
      simp only [List.map_cons, List.sum_cons]
      ring

/-- C10: aggregation conserves totals.  When every metric conversion
succeeds, the grand totals of the summary (the code's monadic sums,
which compute the plain sums of the converted row values) equal the sum
of the per-ad-group bucket sums and the sum of the per-day bucket sums,
for impressions, clicks and cost alike — all three aggregations sum the
same per-row values over partitions of the same rows. -/
theorem c10_conservation (rows : List Row) (h : allConvOk rows) :
    sumIntE rows "Impressions" = .ok (sumIntP rows "Impressions") ∧
    sumIntE rows "Clicks" = .ok (sumIntP rows "Clicks") ∧
    sumFloatE rows "Cost" = .ok (sumFloatP rows "Cost") ∧
    foldBy "AdGroupName" "—" rows [] = .ok (foldByP "AdGroupName" "—" rows []) ∧
    foldBy "Date" "—" rows [] = .ok (foldByP "Date" "—" rows []) ∧
    sumBImps (foldByP "AdGroupName" "—" rows []) = sumIntP rows "Impressions" ∧
    sumBClicks (foldByP "AdGroupName" "—" rows []) = sumIntP rows "Clicks" ∧
    sumBCost (foldByP "AdGroupName" "—" rows []) = sumFloatP rows "Cost" ∧
    sumBImps (foldByP "Date" "—" rows []) = sumIntP rows "Impressions" ∧
    sumBClicks (foldByP "Date" "—" rows []) = sumIntP rows "Clicks" ∧
    sumBCost (foldByP "Date" "—" rows []) = sumFloatP rows "Cost" := by
  have hzero : sumBImps ([] : List (String × Bucket)) = 0 ∧
      sumBClicks ([] : List (String × Bucket)) = 0 ∧
      sumBCost ([] : List (String × Bucket)) = 0 := by
    refine ⟨rfl, rfl, rfl⟩
  obtain ⟨g1, g2, g3⟩ := foldByP_sums "AdGroupName" "—" rows []
  obtain ⟨d1, d2, d3⟩ := foldByP_sums "Date" "—" rows []
  refine ⟨?_, ?_, ?_, ?_, ?_, ?_, ?_, ?_, ?_, ?_, ?_⟩
  · exact sumIntE_ok rows "Impressions" (fun r hr => (h r hr).1)
  · exact sumIntE_ok rows "Clicks" (fun r hr => (h r hr).2.1)
  · exact sumFloatE_ok rows "Cost" (fun r hr => (h r hr).2.2)
  · exact foldBy_ok "AdGroupName" "—" rows h []
  · exact foldBy_ok "Date" "—" rows h []
  · rw [g1, hzero.1, zero_add]
  · rw [g2, hzero.2.1, zero_add]
  · rw [g3, hzero.2.2, zero_add]
  · rw [d1, hzero.1, zero_add]
  · rw [d2, hzero.2.1, zero_add]
  · rw [d3, hzero.2.2, zero_add]

/-- Concrete rows for the C10 witness: two ad groups across two days, one
row with absent metric fields (defaulting to 0). -/
def rowsW : List Row :=
  [[("AdGroupName", "g1"), ("Date", "d1"), ("Impressions", "100"), ("Clicks", "5"),
      ("Cost", "10.5")],
    [("AdGroupName", "g2"), ("Date", "d1"), ("Impressions", "50"), ("Clicks", "2"),
      ("Cost", "3")],
    [("Date", "d2"), ("Impressions", "25")]]

/-- C10 witness: on the concrete row set the per-ad-group bucket sums add
up to the summary total of impressions. -/
theorem c10_witness :
    sumBImps (foldByP "AdGroupName" "—" rowsW []) = sumIntP rowsW "Impressions" :=
  (c10_conservation rowsW (by decide)).2.2.2.2.2.1

end PowerDemon
